import Mathlib

/-!
Verification of the peer-session control layer of sx-peerjs-http-util
(src/index.ts, src/types.ts).

The development shallowly embeds the three cores of the library:

* the request/response correlation protocol of `PeerJsWrapper.send`,
  `handleRequest` and the inbound-connection data handler (boxing, unboxing,
  404/500 envelopes, the pending-request lifecycle);
* the reconnection supervisor (`scheduleReconnect` / `reconnect` and the
  peer lifecycle event handlers);
* the call-session layer (`CallSessionImpl`, `setupMediaConnectionHandlers`,
  `call`, `IncomingCallEvent.answer`, `cleanupCall`).

Event-driven code is modelled as explicit step functions on state records;
a run is a fold of a step function over a list of transport events.
JavaScript promises settle at most once: a promise is an
`Option` outcome and a second resolve/reject on a settled promise is a
no-op.  JSON payloads are modelled by the inductive `Value`;
`JSON.stringify` by `jsonStr` (with standard JSON string escaping).
-/

namespace SxPeerJsHttpUtil

/-! ## JSON payloads (`unknown` values travelling over the wire) -/

mutual

/-- A JSON-like payload value (request `data`, response `data`). -/
inductive Value where
  | null : Value
  | bool (b : Bool) : Value
  | num (n : Int) : Value
  | str (s : String) : Value
  | arr (xs : VList) : Value
  | obj (fs : FList) : Value
deriving DecidableEq

/-- A list of JSON values (array elements). -/
inductive VList where
  | nil : VList
  | cons (hd : Value) (tl : VList) : VList
deriving DecidableEq

/-- A list of key/value fields of a JSON object, in insertion order. -/
inductive FList where
  | nil : FList
  | cons (key : String) (val : Value) (tl : FList) : FList
deriving DecidableEq

end

/-- The object `\x7berror: msg\x7d` used by the 404 and 500 response envelopes. -/
def errObj (msg : String) : Value :=
  Value.obj (FList.cons "error" (Value.str msg) FList.nil)

/-- Characters that `JSON.stringify` escapes inside string literals. -/
def needsEscape (c : Char) : Bool :=
  c = '"' || c = '\\' || c.toNat < 32

/-- Lower-case hexadecimal digit, for `\uXXXX` escapes. -/
def hexDigit (n : Nat) : Char :=
  if n < 10 then Char.ofNat (48 + n) else Char.ofNat (87 + n)

/-- JSON escaping of a single character, as performed by `JSON.stringify`. -/
def escCharL (c : Char) : List Char :=
  if c = '"' then ['\\', '"']
  else if c = '\\' then ['\\', '\\']
  else if c = '\n' then ['\\', 'n']
  else if c = '\r' then ['\\', 'r']
  else if c = '\t' then ['\\', 't']
  else if c.toNat < 32 then ['\\', 'u', '0', '0', hexDigit (c.toNat / 16), hexDigit (c.toNat % 16)]
  else [c]

/-- JSON escaping of a character list. -/
def escapeChars : List Char → List Char
  | [] => []
  | c :: rest => escCharL c ++ escapeChars rest

/-- JSON escaping of the contents of a string literal. -/
def escapeStr (s : String) : String :=
  String.mk (escapeChars s.data)

mutual

/-- `JSON.stringify` on a payload value (used by `send` when building the
rejection message for a non-2xx response). -/
def jsonStr : Value → String
  | .null => "null"
  | .bool true => "true"
  | .bool false => "false"
  | .num n => toString n
  | .str s => "\"" ++ escapeStr s ++ "\""
  | .arr xs => "[" ++ jsonStrArr xs ++ "]"
  | .obj fs => "\x7b" ++ jsonStrObj fs ++ "\x7d"

/-- `JSON.stringify` of array elements, comma separated. -/
def jsonStrArr : VList → String
  | .nil => ""
  | .cons v .nil => jsonStr v
  | .cons v tl => jsonStr v ++ "," ++ jsonStrArr tl

/-- `JSON.stringify` of object fields, comma separated. -/
def jsonStrObj : FList → String
  | .nil => ""
  | .cons k v .nil => "\"" ++ escapeStr k ++ "\":" ++ jsonStr v
  | .cons k v tl => "\"" ++ escapeStr k ++ "\":" ++ jsonStr v ++ "," ++ jsonStrObj tl

end

/-- `needle` occurs as a contiguous substring of `hay`. -/
def strContains (needle hay : String) : Prop :=
  List.IsInfix needle.data hay.data

instance (n h : String) : Decidable (strContains n h) := by
  unfold strContains
  infer_instance

/-! ## Wire envelopes (src/types.ts `Request`/`Response`,
src/index.ts `InternalMessage`) -/

/-- `Request \x7b path, data \x7d` (types.ts). -/
structure Request where
  path : String
  data : Value
deriving DecidableEq

/-- `Response \x7b status, data \x7d` (types.ts). -/
structure Response where
  status : Nat
  data : Value
deriving DecidableEq

/-- The `type` discriminator of an `InternalMessage`. -/
inductive MsgType where
  | request : MsgType
  | response : MsgType
deriving DecidableEq

/-- `InternalMessage` (index.ts): the wire unit exchanged over one logical
data connection, tagged with the correlation id. -/
structure InternalMessage where
  type : MsgType
  id : String
  request : Option Request
  response : Option Response
deriving DecidableEq

/-! ## Handler registry and the inbound dispatcher
(`registerHandler`, `unregisterHandler`, `handleRequest`,
`setupIncomingConnectionHandler`'s data handler; index.ts lines 514-565,
799-829) -/

/-- A `SimpleHandler` `(from, data) => result`; a thrown `Error` with message
`m` is modelled as `Except.error m`. -/
def SimpleHandler : Type :=
  String → Value → Except String Value

/-- The `simpleHandlers` map, path to handler; `Map.set` semantics
(the most recent registration for a path wins). -/
def HandlerMap : Type :=
  List (String × SimpleHandler)

/-- `registerHandler(path, handler)`: `simpleHandlers.set(path, handler)`. -/
def registerHandler (hs : HandlerMap) (path : String) (h : SimpleHandler) : HandlerMap :=
  (path, h) :: hs

/-- `unregisterHandler(path)`: `simpleHandlers.delete(path)`. -/
def unregisterHandler (hs : HandlerMap) (path : String) : HandlerMap :=
  hs.filter (fun e => !(e.1 == path))

/-- `PeerJsWrapper.handleRequest(from, request)` (index.ts lines 816-829):
look up the path; box a handler result as `\x7bstatus: 200, data\x7d`;
answer `\x7bstatus: 404, data: \x7berror: "Path not found: <path>"\x7d\x7d`
when no handler is registered.  A handler throw propagates (to the caller's
try/catch) as `Except.error`. -/
def handleRequest (hs : HandlerMap) (frm : String) (request : Request) : Except String Response :=
  match List.lookup request.path hs with
  | some simpleHandler => (simpleHandler frm request.data).map (fun data => ⟨200, data⟩)
  | none => Except.ok ⟨404, errObj ("Path not found: " ++ request.path)⟩

/-- The inbound connection's `data` handler (index.ts lines 525-553): on a
request message, run `handleRequest` inside try/catch and reply on the same
connection with the original correlation id; a caught handler exception
becomes a `\x7bstatus: 500, data: \x7berror: <message>\x7d\x7d` envelope.
Non-request messages produce no reply (`none`). -/
def serverDataHandler (hs : HandlerMap) (connPeer : String) (message : InternalMessage) :
    Option InternalMessage :=
  if message.type = MsgType.request then
    match message.request with
    | some request =>
        match handleRequest hs connPeer request with
        | Except.ok response => some ⟨MsgType.response, message.id, none, some response⟩
        | Except.error e => some ⟨MsgType.response, message.id, none, some ⟨500, errObj e⟩⟩
    | none => none
  else none

/-! ## The caller side of `send` (index.ts lines 424-509) -/

/-- A settlement of the promise returned by `send`. -/
inductive SendOutcome where
  | resolved (data : Value)
  | rejected (msg : String)
deriving DecidableEq

/-- The response-unboxing step of `send`'s `data` handler (lines 470-479):
reject with `"Request failed: <status> <JSON.stringify(data)>"` when the
status is outside [200,300), otherwise resolve with `response.data` alone. -/
def unboxResponse (response : Response) : SendOutcome :=
  if response.status < 200 ∨ 300 ≤ response.status then
    SendOutcome.rejected
      ("Request failed: " ++ toString response.status ++ " " ++ jsonStr response.data)
  else SendOutcome.resolved response.data

/-- The state of one `send` call after its `PendingRequest` is registered:
whether `requestId` is still in `pendingRequests`, whether the 30s timeout
is still armed (`clearTimeout` not yet called, callback not yet run), and
the resolve/reject invocations delivered to the caller's promise. -/
structure SendState where
  pending : Bool
  timerArmed : Bool
  outcomes : List SendOutcome
deriving DecidableEq

/-- Right after `pendingRequests.set(requestId, ...)` and `setTimeout`. -/
def initSendState : SendState :=
  ⟨true, true, []⟩

/-- Transport events that can reach one `send`'s connection handlers. -/
inductive SendEvent where
  | dataEvt (message : InternalMessage)
  | connError (emsg : String)
  | connClose
  | timerFire
  | destroy
deriving DecidableEq

/-- One step of `send`'s event handlers (index.ts lines 441-503, 857-861):

* `data`: only a response message with the matching correlation id is
  handled; if the `PendingRequest` is still present, clear the timeout and
  delete it, then read `message.response!` — when the message carries a
  response body, unbox it into resolve/reject; when it carries none, the
  non-null assertion's `response.status` access throws a TypeError AFTER
  the deletion, aborting the handler before resolve or reject runs, so no
  settlement is appended (the pending entry and the timer are already
  gone);
* `error` / `close`: if still present, clear the timeout, delete, reject;
* the timeout callback (runs only while armed): delete and reject with
  `"Request timeout: <peerId><path>"`;
* `destroy()`: every pending request is cleared and rejected with
  `"Peer destroyed"`. -/
def sendStep (requestId peerId path : String) (s : SendState) : SendEvent → SendState
  | SendEvent.dataEvt message =>
      if message.type == MsgType.response && message.id == requestId then
        if s.pending then
          match message.response with
          | some response => ⟨false, false, s.outcomes ++ [unboxResponse response]⟩
          | none => ⟨false, false, s.outcomes⟩
        else s
      else s
  | SendEvent.connError emsg =>
      if s.pending then ⟨false, false, s.outcomes ++ [SendOutcome.rejected emsg]⟩ else s
  | SendEvent.connClose =>
      if s.pending then ⟨false, false, s.outcomes ++ [SendOutcome.rejected "Connection closed"]⟩
      else s
  | SendEvent.timerFire =>
      if s.timerArmed then
        ⟨false, false, s.outcomes ++ [SendOutcome.rejected ("Request timeout: " ++ peerId ++ path)]⟩
      else s
  | SendEvent.destroy =>
      if s.pending then ⟨false, false, s.outcomes ++ [SendOutcome.rejected "Peer destroyed"]⟩
      else s

/-- Run one `send`'s handlers over a sequence of transport events. -/
def runSend (requestId peerId path : String) (events : List SendEvent) : SendState :=
  events.foldl (sendStep requestId peerId path) initSendState

/-- Events that settle a pending `send`: a matching response carrying a
response body, a connection error, a connection close, the timeout firing,
or `destroy()`. -/
def isSettlingEvent (requestId : String) : SendEvent → Bool
  | SendEvent.dataEvt message =>
      (message.type == MsgType.response && message.id == requestId)
        && message.response.isSome
  | SendEvent.connError _ => true
  | SendEvent.connClose => true
  | SendEvent.timerFire => true
  | SendEvent.destroy => true

/-- A matching response message with no response body: the handler removes
the `PendingRequest` and clears the timeout, then `message.response!`
throws before resolve/reject can run. -/
def isCrashEvent (requestId : String) : SendEvent → Bool
  | SendEvent.dataEvt message =>
      (message.type == MsgType.response && message.id == requestId)
        && message.response.isNone
  | _ => false

/-- Events that remove the `PendingRequest` (settling or crashing). -/
def isRemovingEvent (requestId : String) (e : SendEvent) : Bool :=
  isSettlingEvent requestId e || isCrashEvent requestId e

/-- Whether the first pending-removing event of a trace is a settling one
(the later removing events find the map already empty). -/
def firstRemovalSettles (requestId : String) : List SendEvent → Bool
  | [] => false
  | e :: rest =>
      if isSettlingEvent requestId e then true
      else if isCrashEvent requestId e then false
      else firstRemovalSettles requestId rest

/-- The handler `(from, d) => d`, returning its data argument unchanged. -/
def idSimpleHandler : SimpleHandler :=
  fun _frm data => Except.ok data

/-- A handler that throws `new Error(msg)`. -/
def throwingHandler (msg : String) : SimpleHandler :=
  fun _frm _data => Except.error msg

/-- A full request/response round trip: the caller's request envelope is
dispatched by the remote peer's data handler and the reply (if any) is fed
back into the caller's `send` handlers; the result is the list of
settlements of the `send` promise. -/
def sendRoundTrip (hs : HandlerMap) (callerId peerId path : String) (payload : Value)
    (requestId : String) : List SendOutcome :=
  let requestMsg : InternalMessage := ⟨MsgType.request, requestId, some ⟨path, payload⟩, none⟩
  match serverDataHandler hs callerId requestMsg with
  | some responseMsg => (runSend requestId peerId path [SendEvent.dataEvt responseMsg]).outcomes
  | none => (runSend requestId peerId path []).outcomes

/-! ## Reconnection supervisor (index.ts lines 255-367, 834-867) -/

/-- The fixed reconnect backoff passed to `setTimeout` (milliseconds);
the spec's one time unit. -/
def reconnectDelayMs : Nat :=
  1000

/-- `err.type` values that trigger `scheduleReconnect` (lines 310-318). -/
def isRecoverableErrorType (t : String) : Bool :=
  t == "network" || t == "server-error" || t == "socket-error" || t == "socket-closed"

/-- The reconnection-relevant state of a `PeerJsWrapper`: the immutable
`myPeerId`, the `isDestroyed` flag, whether `reconnectTimer` is non-null,
a generation counter standing for the current `peerInstance` object,
the generations already destroyed, and a log of the backoff delays passed
to `setTimeout` by `scheduleReconnect`. -/
structure ReconnState where
  myPeerId : String
  destroyed : Bool
  reconnectTimer : Bool
  peerGen : Nat
  destroyedGens : List Nat
  schedLog : List Nat
  boundIds : List String
deriving DecidableEq

/-- `scheduleReconnect()` (lines 337-345): no-op when destroyed or when a
reconnect is already pending; otherwise arm the timer with the fixed
backoff. -/
def scheduleReconnect (s : ReconnState) : ReconnState :=
  if s.destroyed then s
  else if s.reconnectTimer then s
  else { s with reconnectTimer := true, schedLog := s.schedLog ++ [reconnectDelayMs] }

/-- `connect()` (lines 278-286): create a fresh `Peer` bound to `myPeerId`
(a new generation); no-op when destroyed. -/
def connect (s : ReconnState) : ReconnState :=
  if s.destroyed then s
  else { s with peerGen := s.peerGen + 1, boundIds := s.boundIds ++ [s.myPeerId] }

/-- `reconnect()` (lines 350-367): destroy the old `peerInstance`
(errors swallowed) and `connect()` again; no-op when destroyed. -/
def reconnect (s : ReconnState) : ReconnState :=
  if s.destroyed then s
  else connect { s with destroyedGens := s.destroyedGens ++ [s.peerGen] }

/-- Peer lifecycle events and commands reaching the supervisor. -/
inductive PeerEvent where
  | opened
  | disconnectedEvt
  | errorEvt (t : String)
  | timerFire
  | destroyCmd
deriving DecidableEq

/-- One step of the peer event handlers (lines 291-332) plus the reconnect
timer callback and `destroy()` (lines 834-841):

* `open`: clear any pending reconnect timer;
* `disconnected`: `scheduleReconnect()`;
* `error`: `scheduleReconnect()` only for the four recoverable types;
* the timer callback (runs only while armed): null the timer, `reconnect()`;
* `destroy()`: set `isDestroyed`, clear the timer. -/
def peerStep (s : ReconnState) : PeerEvent → ReconnState
  | PeerEvent.opened => { s with reconnectTimer := false }
  | PeerEvent.disconnectedEvt => scheduleReconnect s
  | PeerEvent.errorEvt t => if isRecoverableErrorType t then scheduleReconnect s else s
  | PeerEvent.timerFire =>
      if s.reconnectTimer then reconnect { s with reconnectTimer := false } else s
  | PeerEvent.destroyCmd => { s with destroyed := true, reconnectTimer := false }

/-- The state right after the constructor (lines 255-260): `myPeerId` fixed,
one `connect()` performed. -/
def initReconnState (peerId : String) : ReconnState :=
  ⟨peerId, false, false, 1, [], [], [peerId]⟩

/-- Run the supervisor over a sequence of lifecycle events. -/
def runPeer (events : List PeerEvent) (s : ReconnState) : ReconnState :=
  events.foldl peerStep s

/-- `getPeerId()` (lines 373-375). -/
def getPeerId (s : ReconnState) : String :=
  s.myPeerId

/-! ## Call sessions (index.ts lines 49-169, 575-792) -/

/-- `CallState` (types.ts). -/
inductive CallState where
  | connecting
  | connected
  | ended
deriving DecidableEq

/-- The `kind` of a `MediaStreamTrack`. -/
inductive TrackKind where
  | audio
  | video
deriving DecidableEq

/-- A local `MediaStreamTrack`: its kind, its `enabled` flag, and whether
`stop()` has been called on it. -/
structure MediaTrack where
  kind : TrackKind
  enabled : Bool
  stopped : Bool
deriving DecidableEq

/-- `CallSessionImpl` (index.ts lines 49-169).  `sid` stands for the object
identity of the session.  `listeners` is the `stateListeners` set in
insertion order, each with an id and a flag saying whether the listener
throws when invoked; `observed` records every `(listenerId, state, reason)`
delivery made by `notifyStateChange` (a throwing listener is caught, so it
is delivered to like any other). -/
structure CallSessionImpl where
  sid : Nat
  peerId : String
  hasVideo : Bool
  state : CallState
  localStream : Option (List MediaTrack)
  remoteStream : Option Nat
  isMuted : Bool
  isVideoEnabled : Bool
  listeners : List (Nat × Bool)
  observed : List (Nat × CallState × Option String)
deriving DecidableEq

/-- A session as built by `call()`/`answer()` (constructor defaults plus
`setLocalStream`): state `connecting`, not muted, video enabled, no remote
stream yet. -/
def mkCallSession (sid : Nat) (peerId : String) (hasVideo : Bool)
    (localTracks : List MediaTrack) (listeners : List (Nat × Bool)) : CallSessionImpl :=
  ⟨sid, peerId, hasVideo, CallState.connecting, some localTracks, none, false, true,
    listeners, []⟩

/-- `notifyStateChange(state, reason)` (lines 154-163): invoke every
registered listener in insertion order with `(state, reason)`; a listener
throwing is caught and does not prevent the others from being notified. -/
def notifyStateChange (s : CallSessionImpl) (state : CallState) (reason : Option String) :
    CallSessionImpl :=
  { s with observed := s.observed ++ s.listeners.map (fun l => (l.1, state, reason)) }

/-- `setState(state, reason)` (lines 86-89): overwrite `_state`
unconditionally — there is no terminal-state guard — then notify. -/
def setState (s : CallSessionImpl) (state : CallState) (reason : Option String) :
    CallSessionImpl :=
  notifyStateChange { s with state := state } state reason

/-- `close()` (lines 136-144): stop all local tracks and drop the local
stream, drop the remote stream, set `_state := ended` without notifying. -/
def sessClose (s : CallSessionImpl) : CallSessionImpl :=
  { s with localStream := none, remoteStream := none, state := CallState.ended }

/-- Events emitted by the underlying `MediaConnection`. -/
inductive MediaEvent where
  | streamEvt (remoteId : Nat)
  | closeEvt
  | errorEvt (emsg : Option String)
deriving DecidableEq

/-- `setupMediaConnectionHandlers` (lines 690-711):

* `stream`: store the remote stream, `setState('connected')`;
* `close`: `close()` then `setState('ended', 'Connection closed')`;
* `error`: `close()` then `setState('ended', err.message || 'Media error')`. -/
def mediaStep (s : CallSessionImpl) : MediaEvent → CallSessionImpl
  | MediaEvent.streamEvt remoteId =>
      setState { s with remoteStream := some remoteId } CallState.connected none
  | MediaEvent.closeEvt =>
      setState (sessClose s) CallState.ended (some "Connection closed")
  | MediaEvent.errorEvt emsg =>
      setState (sessClose s) CallState.ended (some (emsg.getD "Media error"))

/-- Run a session's media handlers over a sequence of media events. -/
def runMedia (s : CallSessionImpl) (events : List MediaEvent) : CallSessionImpl :=
  events.foldl mediaStep s

/-- Media events whose handler drives the session to `ended`
(`close` and `error`). -/
def isEndedEvent : MediaEvent → Bool
  | MediaEvent.streamEvt _ => false
  | MediaEvent.closeEvt => true
  | MediaEvent.errorEvt _ => true

/-- Number of `(lid, ended, _)` deliveries recorded for listener `lid`. -/
def endedObsCount (s : CallSessionImpl) (lid : Nat) : Nat :=
  s.observed.countP (fun o => decide (o.1 = lid) && decide (o.2.1 = CallState.ended))

/-- Multiplicity of listener `lid` in the listener set (1 for a registered
listener, since `stateListeners` is a `Set`). -/
def listenerCount (s : CallSessionImpl) (lid : Nat) : Nat :=
  s.listeners.countP (fun l => decide (l.1 = lid))

/-- `toggleMute` on one track (lines 110-113): set `enabled := isMuted` on
audio tracks, leave other tracks alone; no track is ever stopped. -/
def toggleMuteTrack (muted : Bool) (t : MediaTrack) : MediaTrack :=
  if t.kind = TrackKind.audio then { t with enabled := muted } else t

/-- `toggleMute()` (lines 107-117): without a local stream, return `isMuted`
unchanged; otherwise set `enabled := isMuted` on every audio track, flip
`isMuted`, and return the new value. -/
def toggleMute (s : CallSessionImpl) : CallSessionImpl × Bool :=
  match s.localStream with
  | none => (s, s.isMuted)
  | some tracks =>
      let tracks := tracks.map (toggleMuteTrack s.isMuted)
      ({ s with localStream := some tracks, isMuted := !s.isMuted }, !s.isMuted)

/-- `toggleVideo` on one track (lines 122-125). -/
def toggleVideoTrack (enabled : Bool) (t : MediaTrack) : MediaTrack :=
  if t.kind = TrackKind.video then { t with enabled := enabled } else t

/-- `toggleVideo()` (lines 119-129): no-op without video or without a local
stream; otherwise set `enabled := !isVideoEnabled` on every video track and
flip `isVideoEnabled`. -/
def toggleVideo (s : CallSessionImpl) : CallSessionImpl × Bool :=
  if !s.hasVideo then (s, s.isVideoEnabled)
  else
    match s.localStream with
    | none => (s, s.isVideoEnabled)
    | some tracks =>
        let tracks := tracks.map (toggleVideoTrack (!s.isVideoEnabled))
        ({ s with localStream := some tracks, isVideoEnabled := !s.isVideoEnabled },
          !s.isVideoEnabled)

/-- The invariant relating audio-track `enabled` flags to `isMuted`:
it holds for a freshly acquired stream (tracks enabled, not muted) and is
preserved by the toggles. -/
def audioSync (s : CallSessionImpl) : Prop :=
  ∀ tracks, s.localStream = some tracks →
    ∀ t ∈ tracks, t.kind = TrackKind.audio → t.enabled = !s.isMuted

/-! ## The wrapper's active-call slot (index.ts lines 575-661, 683-685,
716-720, 737-776) -/

/-- The call-related state of a `PeerJsWrapper`: the `activeCall` slot
(holding the identity of the active `CallSessionImpl`, or null) and a
counter for fresh session identities. -/
structure WrapperCalls where
  activeCall : Option Nat
  nextSid : Nat
deriving DecidableEq

/-- `cleanupCall(session)` (lines 716-720): null the slot only if it still
holds this very session. -/
def cleanupCall (w : WrapperCalls) (s : CallSessionImpl) : WrapperCalls :=
  if w.activeCall = some s.sid then { w with activeCall := none } else w

/-- `getActiveCall()` (lines 683-685). -/
def getActiveCall (w : WrapperCalls) : Option Nat :=
  w.activeCall

/-- `setState` observed at wrapper level: the session notifies its
listeners, and `notifyStateChange` invokes `onCleanup` (`cleanupCall`)
when the notified state is `ended` (lines 164-167). -/
def wrapperSetState (w : WrapperCalls) (s : CallSessionImpl) (state : CallState)
    (reason : Option String) : WrapperCalls × CallSessionImpl :=
  let s := setState s state reason
  (if state = CallState.ended then cleanupCall w s else w, s)

/-- A media event processed at wrapper level (the handlers of
`setupMediaConnectionHandlers` with `onCleanup` wired to `cleanupCall`). -/
def wrapperMediaStep (w : WrapperCalls) (s : CallSessionImpl) :
    MediaEvent → WrapperCalls × CallSessionImpl
  | MediaEvent.streamEvt remoteId =>
      wrapperSetState w { s with remoteStream := some remoteId } CallState.connected none
  | MediaEvent.closeEvt =>
      wrapperSetState w (sessClose s) CallState.ended (some "Connection closed")
  | MediaEvent.errorEvt emsg =>
      wrapperSetState w (sessClose s) CallState.ended (some (emsg.getD "Media error"))

/-- Result of a `call()` attempt. -/
inductive CallAttemptResult where
  | rejected (msg : String)
  | started (sid : Nat)
deriving DecidableEq

/-- The guard and registration of `call()` (lines 575-661): reject
immediately with `'Already in a call'` when the slot is occupied; otherwise
(media acquisition succeeding) construct a session and store it as the
active call. -/
def callAttempt (w : WrapperCalls) : WrapperCalls × CallAttemptResult :=
  if w.activeCall.isSome then (w, CallAttemptResult.rejected "Already in a call")
  else
    ({ activeCall := some w.nextSid, nextSid := w.nextSid + 1 },
      CallAttemptResult.started w.nextSid)

deriving instance DecidableEq for Except

/-- Result of an `IncomingCallEvent.answer()` attempt: whether the offered
`MediaConnection` was closed, and the thrown error or the answered session. -/
structure AnswerResult where
  mediaConnClosed : Bool
  outcome : Except String Nat
deriving DecidableEq

/-- The guard and registration of `answer()` (lines 737-776): when the slot
is occupied, close the offered media connection first and throw
`'Already in a call'`; otherwise (media acquisition succeeding) answer,
construct a session, and store it as the active call. -/
def answerAttempt (w : WrapperCalls) : WrapperCalls × AnswerResult :=
  if w.activeCall.isSome then (w, ⟨true, Except.error "Already in a call"⟩)
  else
    ({ activeCall := some w.nextSid, nextSid := w.nextSid + 1 },
      ⟨false, Except.ok w.nextSid⟩)

/-! ## The promise returned by `call()` (index.ts lines 631-657) -/

/-- A settlement of the promise returned by `call()`. -/
inductive CallPromiseOutcome where
  | resolvedSession
  | rejectedCall (msg : String)
deriving DecidableEq

/-- JavaScript promise settlement: the first resolve/reject wins. -/
def settle (p : Option CallPromiseOutcome) (o : CallPromiseOutcome) :
    Option CallPromiseOutcome :=
  match p with
  | none => some o
  | some x => some x

/-- The state of one `call()`'s promise machinery: the session state, the
membership of the internal `onConnected`/`onEnded` listeners in
`stateListeners`, the 30s no-answer timer, the promise, and whether
`session.hangUp()` has been invoked. -/
structure CallPromiseState where
  sessState : CallState
  subConnected : Bool
  subEnded : Bool
  timerArmed : Bool
  promise : Option CallPromiseOutcome
  hangUpCalled : Bool
deriving DecidableEq

/-- Right after `call()` registers the session: `connecting`, both internal
listeners subscribed (`onConnected` first), timeout armed, promise
unsettled. -/
def initCallPromise : CallPromiseState :=
  ⟨CallState.connecting, true, true, true, none, false⟩

/-- One `notifyStateChange(state, reason)` reaching the internal listeners
(lines 640-657).  `stateListeners.forEach` visits `onConnected` first;
`onConnected` ignores its arguments: it clears the timeout, unsubscribes
both listeners (so the not-yet-visited `onEnded` is skipped by the
`Set.forEach` deletion rule) and resolves with the session.  `onEnded`
clears the timeout, unsubscribes both, and rejects only when the notified
state is `ended`. -/
def promiseNotify (cp : CallPromiseState) (state : CallState) (reason : Option String) :
    CallPromiseState :=
  if cp.subConnected then
    { cp with
        subConnected := false, subEnded := false, timerArmed := false,
        promise := settle cp.promise CallPromiseOutcome.resolvedSession }
  else if cp.subEnded then
    { cp with
        subConnected := false, subEnded := false, timerArmed := false,
        promise :=
          if state = CallState.ended then
            settle cp.promise
              (CallPromiseOutcome.rejectedCall (reason.getD "Call ended before connected"))
          else cp.promise }
  else cp

/-- Events reaching one `call()`'s promise machinery: the media connection
events (driving `setState`, hence the notifications) and the 30s no-answer
timeout callback (lines 632-637), which runs only while armed and, when the
session is not yet connected, hangs up and rejects with
`'Call timeout - no answer'`. -/
inductive CallEvent where
  | mediaStream
  | mediaClose
  | mediaError (emsg : Option String)
  | timerFire
deriving DecidableEq

/-- One step of the `call()` promise machinery. -/
def callPromiseStep (cp : CallPromiseState) : CallEvent → CallPromiseState
  | CallEvent.mediaStream =>
      promiseNotify { cp with sessState := CallState.connected } CallState.connected none
  | CallEvent.mediaClose =>
      promiseNotify { cp with sessState := CallState.ended } CallState.ended
        (some "Connection closed")
  | CallEvent.mediaError emsg =>
      promiseNotify { cp with sessState := CallState.ended } CallState.ended
        (some (emsg.getD "Media error"))
  | CallEvent.timerFire =>
      if cp.timerArmed then
        let cp := { cp with timerArmed := false }
        if cp.sessState ≠ CallState.connected then
          { cp with
              hangUpCalled := true,
              promise := settle cp.promise
                (CallPromiseOutcome.rejectedCall "Call timeout - no answer") }
        else cp
      else cp

/-- Run the `call()` promise machinery over a sequence of events. -/
def runCallPromise (cp : CallPromiseState) (events : List CallEvent) : CallPromiseState :=
  events.foldl callPromiseStep cp

/-! ## Derived message shapes -/

/-- The rejection message `send` produces for a 404 response to `path`
(`"Request failed: <status> <JSON.stringify(data)>"`). -/
def notFoundRejectMsg (path : String) : String :=
  "Request failed: " ++ toString (404 : Nat) ++ " "
    ++ jsonStr (errObj ("Path not found: " ++ path))

/-- The rejection message `send` produces for a 500 response carrying a
thrown message. -/
def serverErrorRejectMsg (emsg : String) : String :=
  "Request failed: " ++ toString (500 : Nat) ++ " " ++ jsonStr (errObj emsg)

/-- A string none of whose characters is rewritten by JSON escaping. -/
def plainChars (s : String) : Prop :=
  ∀ c ∈ s.data, needsEscape c = false

instance (s : String) : Decidable (plainChars s) := by
  unfold plainChars
  infer_instance

/-! ## Helper lemmas: JSON escaping and substring witnesses -/

theorem escapeChars_append (l1 l2 : List Char) :
    escapeChars (l1 ++ l2) = escapeChars l1 ++ escapeChars l2 := by
  induction l1 with
  | nil => rfl
  | cons c rest ih => simp [escapeChars, ih, List.append_assoc]

theorem data_escapeStr (s : String) : (escapeStr s).data = escapeChars s.data :=
  rfl

theorem escCharL_of_plain (c : Char) (h : needsEscape c = false) : escCharL c = [c] := by
  simp only [needsEscape, Bool.or_eq_false_iff, decide_eq_false_iff_not] at h
  obtain ⟨⟨h1, h2⟩, h3⟩ := h
  unfold escCharL
  rw [if_neg h1, if_neg h2, if_neg (fun hc => h3 (by rw [hc]; decide)),
    if_neg (fun hc => h3 (by rw [hc]; decide)), if_neg (fun hc => h3 (by rw [hc]; decide)),
    if_neg h3]

theorem escapeChars_of_plain (l : List Char) (h : ∀ c ∈ l, needsEscape c = false) :
    escapeChars l = l := by
  induction l with
  | nil => rfl
  | cons c rest ih =>
      simp [escapeChars, escCharL_of_plain c (h c (by simp)),
        ih (fun x hx => h x (by simp [hx]))]

theorem strContains_parts (n hay : String) (pre suf : List Char)
    (h : pre ++ n.data ++ suf = hay.data) : strContains n hay :=
  ⟨pre, suf, h⟩

theorem contains_404_notFound (p : String) : strContains "404" (notFoundRejectMsg p) := by
  apply strContains_parts _ _ ("Request failed: ".data)
    (" ".data ++ (jsonStr (errObj ("Path not found: " ++ p))).data)
  have h404 : toString (404 : Nat) = "404" := by decide
  simp [notFoundRejectMsg, String.data_append, h404, List.append_assoc]

theorem contains_escaped_path_notFound (p : String) :
    strContains (escapeStr p) (notFoundRejectMsg p) := by
  apply strContains_parts _ _
    ("Request failed: ".data ++ (toString (404 : Nat)).data ++ " ".data ++ "\x7b".data
      ++ "\"".data ++ escapeChars "error".data ++ "\":".data ++ "\"".data
      ++ escapeChars "Path not found: ".data)
    ("\"".data ++ "\x7d".data)
  simp [notFoundRejectMsg, jsonStr, jsonStrObj, errObj, data_escapeStr, String.data_append,
    escapeChars_append, escapeChars, escCharL, List.append_assoc]

theorem contains_plain_path_notFound (p : String) (hp : plainChars p) :
    strContains p (notFoundRejectMsg p) := by
  apply strContains_parts _ _
    ("Request failed: ".data ++ (toString (404 : Nat)).data ++ " ".data ++ "\x7b".data
      ++ "\"".data ++ escapeChars "error".data ++ "\":".data ++ "\"".data
      ++ escapeChars "Path not found: ".data)
    ("\"".data ++ "\x7d".data)
  simp [notFoundRejectMsg, jsonStr, jsonStrObj, errObj, data_escapeStr, String.data_append,
    escapeChars_append, escapeChars, escCharL, List.append_assoc,
    escapeChars_of_plain p.data hp]

theorem contains_500_serverError (m : String) : strContains "500" (serverErrorRejectMsg m) := by
  apply strContains_parts _ _ ("Request failed: ".data)
    (" ".data ++ (jsonStr (errObj m)).data)
  have h500 : toString (500 : Nat) = "500" := by decide
  simp [serverErrorRejectMsg, String.data_append, h500, List.append_assoc]

theorem contains_escaped_msg_serverError (m : String) :
    strContains (escapeStr m) (serverErrorRejectMsg m) := by
  apply strContains_parts _ _
    ("Request failed: ".data ++ (toString (500 : Nat)).data ++ " ".data ++ "\x7b".data
      ++ "\"".data ++ escapeChars "error".data ++ "\":".data ++ "\"".data)
    ("\"".data ++ "\x7d".data)
  simp [serverErrorRejectMsg, jsonStr, jsonStrObj, errObj, data_escapeStr, String.data_append,
    escapeChars_append, escapeChars, escCharL, List.append_assoc]

theorem contains_plain_msg_serverError (m : String) (hm : plainChars m) :
    strContains m (serverErrorRejectMsg m) := by
  apply strContains_parts _ _
    ("Request failed: ".data ++ (toString (500 : Nat)).data ++ " ".data ++ "\x7b".data
      ++ "\"".data ++ escapeChars "error".data ++ "\":".data ++ "\"".data)
    ("\"".data ++ "\x7d".data)
  simp [serverErrorRejectMsg, jsonStr, jsonStrObj, errObj, data_escapeStr, String.data_append,
    escapeChars_append, escapeChars, escCharL, List.append_assoc,
    escapeChars_of_plain m.data hm]

/-! ## C1: the PendingRequest lifecycle of one `send` -/

theorem settling_crash_exclusive (requestId : String) (e : SendEvent) :
    (isSettlingEvent requestId e && isCrashEvent requestId e) = false := by
  cases e with
  | dataEvt message =>
      cases hr : message.response <;> simp [isSettlingEvent, isCrashEvent, hr]
  | connError emsg => rfl
  | connClose => rfl
  | timerFire => rfl
  | destroy => rfl

theorem sendStep_char (requestId peerId path : String) (s : SendState) (e : SendEvent)
    (h : s.timerArmed = s.pending) :
    (sendStep requestId peerId path s e).pending
        = (s.pending && !(isRemovingEvent requestId e))
    ∧ (sendStep requestId peerId path s e).timerArmed
        = (s.pending && !(isRemovingEvent requestId e))
    ∧ (sendStep requestId peerId path s e).outcomes.length
        = s.outcomes.length
          + (if s.pending && isSettlingEvent requestId e then 1 else 0) := by
  cases e with
  | dataEvt message =>
      cases hb : (message.type == MsgType.response && message.id == requestId) <;>
        cases hr : message.response <;>
          cases hp : s.pending <;>
            simp [sendStep, isSettlingEvent, isCrashEvent, isRemovingEvent, hb, hr, hp, h]
  | connError emsg =>
      cases hp : s.pending <;>
        simp [sendStep, isSettlingEvent, isCrashEvent, isRemovingEvent, hp, h]
  | connClose =>
      cases hp : s.pending <;>
        simp [sendStep, isSettlingEvent, isCrashEvent, isRemovingEvent, hp, h]
  | timerFire =>
      cases hp : s.pending <;>
        simp [sendStep, isSettlingEvent, isCrashEvent, isRemovingEvent, hp, h]
  | destroy =>
      cases hp : s.pending <;>
        simp [sendStep, isSettlingEvent, isCrashEvent, isRemovingEvent, hp, h]

theorem runSendAux (requestId peerId path : String) (events : List SendEvent) :
    ∀ s : SendState, s.timerArmed = s.pending →
      ((events.foldl (sendStep requestId peerId path) s).outcomes.length
          = s.outcomes.length
            + (if s.pending && firstRemovalSettles requestId events then 1 else 0))
      ∧ (events.foldl (sendStep requestId peerId path) s).pending
          = (s.pending && !(events.any (isRemovingEvent requestId)))
      ∧ (events.foldl (sendStep requestId peerId path) s).timerArmed
          = (s.pending && !(events.any (isRemovingEvent requestId))) := by
  induction events with
  | nil => intro s h; simp [firstRemovalSettles, h]
  | cons e rest ih =>
      intro s h
      obtain ⟨hp, ht, hl⟩ := sendStep_char requestId peerId path s e h
      obtain ⟨ihl, ihp, iht⟩ :=
        ih (sendStep requestId peerId path s e) (ht.trans hp.symm)
      have hex := settling_crash_exclusive requestId e
      refine ⟨?_, ?_, ?_⟩
      · rw [List.foldl_cons, ihl, hl, hp]
        cases hsp : s.pending <;> cases hse : isSettlingEvent requestId e <;>
          cases hcr : isCrashEvent requestId e <;>
            cases hfr : firstRemovalSettles requestId rest <;>
              simp_all [firstRemovalSettles, isRemovingEvent]
      · rw [List.foldl_cons, ihp, hp, List.any_cons]
        cases hsp : s.pending <;> cases hse : isSettlingEvent requestId e <;>
          cases hcr : isCrashEvent requestId e <;>
            cases hra : rest.any (isRemovingEvent requestId) <;>
              simp_all [isRemovingEvent]
      · rw [List.foldl_cons, iht, hp, List.any_cons]
        cases hsp : s.pending <;> cases hse : isSettlingEvent requestId e <;>
          cases hcr : isCrashEvent requestId e <;>
            cases hra : rest.any (isRemovingEvent requestId) <;>
              simp_all [isRemovingEvent]

theorem firstRemovalSettles_of_no_crash (requestId : String) (events : List SendEvent)
    (h : ∀ e ∈ events, isCrashEvent requestId e = false) :
    firstRemovalSettles requestId events = events.any (isSettlingEvent requestId) := by
  induction events with
  | nil => rfl
  | cons e rest ih =>
      have he := h e (by simp)
      have hr := ih (fun x hx => h x (by simp [hx]))
      cases hse : isSettlingEvent requestId e <;>
        simp [firstRemovalSettles, List.any_cons, he, hse, hr]

/-- C1 (amended): over any transport-event trace, a `send` settles at most
once: the number of resolve/reject invocations is 1 when the first
pending-removing event of the trace settles (a matching response carrying
a body, a connection error, a connection close, the timeout firing, or
`destroy()`), and 0 otherwise; the `PendingRequest` registered under the
correlation id is removed exactly once — `pending` is false exactly when
some removing event occurred — so no second resolution can reach the
caller.  In particular, on every trace whose matching responses all carry
a response body (as all responses produced by this library's dispatcher
do), exactly one of resolve/reject fires.  A matching response with no
body, however, removes the `PendingRequest` and clears the timeout but
`message.response!` throws before resolve/reject runs, so such a trace
settles zero times (see the counterexample). -/
theorem send_settles_exactly_once (requestId peerId path : String)
    (events : List SendEvent) :
    (runSend requestId peerId path events).outcomes.length
        = (if firstRemovalSettles requestId events then 1 else 0)
    ∧ (runSend requestId peerId path events).pending
        = !(events.any (isRemovingEvent requestId))
    ∧ ((∀ e ∈ events, isCrashEvent requestId e = false) →
        (runSend requestId peerId path events).outcomes.length
          = (if events.any (isSettlingEvent requestId) then 1 else 0)) := by
  obtain ⟨h1, h2, h3⟩ := runSendAux requestId peerId path events initSendState rfl
  refine ⟨by simpa [runSend, initSendState] using h1,
    by simpa [runSend, initSendState] using h2, ?_⟩
  intro hnc
  rw [← firstRemovalSettles_of_no_crash requestId events hnc]
  simpa [runSend, initSendState] using h1

/-- Witness for C1 on a concrete crash-free trace: a single connection
close settles the `send` exactly once. -/
theorem send_settles_exactly_once_witness :
    (runSend "rid" "peer-a" "/p" [SendEvent.connClose]).outcomes.length = 1 := by
  have h := (send_settles_exactly_once "rid" "peer-a" "/p" [SendEvent.connClose]).2.2
    (by decide)
  exact h.trans (by decide)

/-- Counterexample to C1 as stated: a matching response message carrying
no response body removes the `PendingRequest` and clears the timeout
(index.ts lines 465-468), but `message.response!` then throws before
resolve or reject runs — the promise settles zero times, and every later
event (close, timeout, destroy) finds the map empty and settles nothing
either, so neither resolve nor reject ever fires for this `send`. -/
theorem send_settles_zero_counterexample :
    (runSend "rid" "peer-a" "/p"
        [SendEvent.dataEvt ⟨MsgType.response, "rid", none, none⟩]).outcomes.length = 0
  ∧ (runSend "rid" "peer-a" "/p"
        [SendEvent.dataEvt ⟨MsgType.response, "rid", none, none⟩]).pending = false
  ∧ (runSend "rid" "peer-a" "/p"
        [SendEvent.dataEvt ⟨MsgType.response, "rid", none, none⟩, SendEvent.connClose,
          SendEvent.timerFire, SendEvent.destroy]).outcomes.length = 0 := by
  exact ⟨rfl, rfl, rfl⟩

/-! ## C2: identity round trip -/

/-- C2: for every payload P, with the identity handler registered for a
path, a round trip of `send(peer, path, P)` resolves to a value deep-equal
to P: the dispatcher boxes the handler result as status 200, and `send`
unboxes any 2xx response, resolving with `response.data` alone (never the
status/envelope wrapper). -/
theorem send_roundtrip_resolves_payload (hs : HandlerMap)
    (callerId peerId path requestId : String) (P : Value) :
    sendRoundTrip (registerHandler hs path idSimpleHandler) callerId peerId path P requestId
      = [SendOutcome.resolved P]
  ∧ (∀ response : Response, 200 ≤ response.status → response.status < 300 →
      unboxResponse response = SendOutcome.resolved response.data) := by
  constructor
  · simp [sendRoundTrip, serverDataHandler, handleRequest, registerHandler, idSimpleHandler,
      Except.map, runSend, sendStep, initSendState, unboxResponse, List.lookup]
  · intro response h1 h2
    unfold unboxResponse
    rw [if_neg (by omega)]

/-- Witness for C2 at a concrete payload and a concrete 2xx response. -/
theorem send_roundtrip_resolves_payload_witness :
    sendRoundTrip (registerHandler [] "/echo" idSimpleHandler) "A" "B" "/echo"
        (Value.num 7) "rid-1" = [SendOutcome.resolved (Value.num 7)]
  ∧ unboxResponse ⟨204, Value.null⟩ = SendOutcome.resolved Value.null := by
  have h := send_roundtrip_resolves_payload [] "A" "B" "/echo" "rid-1" (Value.num 7)
  exact ⟨h.1, h.2 ⟨204, Value.null⟩ (by decide) (by decide)⟩

/-! ## C6: unregistered path -/

/-- C6 (amended): for every path with no registered handler the dispatcher
responds status 404 with payload `\x7berror: "Path not found: <path>"\x7d`,
and `send` rejects with a message containing `"404"` and the JSON-escaped
path — which equals the path itself whenever the path has no characters
rewritten by JSON string escaping. -/
theorem unregistered_path_404_rejects (hs : HandlerMap) (connPeer requestId path : String)
    (payload : Value) (h : List.lookup path hs = none) :
    serverDataHandler hs connPeer ⟨MsgType.request, requestId, some ⟨path, payload⟩, none⟩
        = some ⟨MsgType.response, requestId, none,
            some ⟨404, errObj ("Path not found: " ++ path)⟩⟩
  ∧ unboxResponse ⟨404, errObj ("Path not found: " ++ path)⟩
        = SendOutcome.rejected (notFoundRejectMsg path)
  ∧ strContains "404" (notFoundRejectMsg path)
  ∧ strContains (escapeStr path) (notFoundRejectMsg path)
  ∧ (plainChars path → strContains path (notFoundRejectMsg path)) := by
  refine ⟨by simp [serverDataHandler, handleRequest, h], rfl,
    contains_404_notFound path, contains_escaped_path_notFound path,
    fun hp => contains_plain_path_notFound path hp⟩

/-- Witness for C6 at the spec's own scenario path `/missing`. -/
theorem unregistered_path_404_rejects_witness :
    List.lookup "/missing" ([] : HandlerMap) = none
  ∧ strContains "/missing" (notFoundRejectMsg "/missing")
  ∧ strContains "404" (notFoundRejectMsg "/missing") := by
  have h := unregistered_path_404_rejects [] "B" "rid" "/missing" Value.null rfl
  exact ⟨rfl, h.2.2.2.2 (by decide), h.2.2.1⟩

/-- Counterexample to C6 as stated: for the unregistered path `a"b`,
JSON escaping turns the quote into `\"` inside the rejection message, so
the message does not contain the path verbatim. -/
theorem unregistered_path_404_counterexample :
    List.lookup "a\"b" ([] : HandlerMap) = none
  ∧ unboxResponse ⟨404, errObj ("Path not found: " ++ "a\"b")⟩
      = SendOutcome.rejected (notFoundRejectMsg "a\"b")
  ∧ ¬ strContains "a\"b" (notFoundRejectMsg "a\"b") := by
  refine ⟨rfl, rfl, by decide⟩

/-! ## C7: throwing handler -/

theorem handleRequest_status (hs : HandlerMap) (cp : String) (request : Request)
    (response : Response) (h : handleRequest hs cp request = Except.ok response) :
    response.status = 200 ∨ response.status = 404 := by
  unfold handleRequest at h
  split at h
  · rename_i simpleHandler hlk
    cases hx : simpleHandler cp request.data with
    | ok d =>
        rw [hx] at h
        simp only [Except.map] at h
        cases h
        exact Or.inl rfl
    | error e =>
        rw [hx] at h
        simp [Except.map] at h
  · cases h
    exact Or.inr rfl

/-- C7 (amended): for every request whose handler throws, the dispatcher
catches the exception and responds with a status-500 envelope carrying the
thrown message; the dispatcher always produces a response envelope with
status 200, 404 or 500 (a handler exception never propagates out uncaught);
and `send` rejects with a message containing `"500"` and the JSON-escaped
thrown message — which equals the thrown message whenever it has no
characters rewritten by JSON string escaping. -/
theorem handler_throw_500_rejects (hs : HandlerMap) (connPeer requestId path : String)
    (payload : Value) (emsg : String) :
    serverDataHandler (registerHandler hs path (throwingHandler emsg)) connPeer
        ⟨MsgType.request, requestId, some ⟨path, payload⟩, none⟩
      = some ⟨MsgType.response, requestId, none, some ⟨500, errObj emsg⟩⟩
  ∧ (∀ (hs' : HandlerMap) (cp : String) (message respMsg : InternalMessage),
        serverDataHandler hs' cp message = some respMsg →
        ∃ r : Response, respMsg.response = some r
          ∧ (r.status = 200 ∨ r.status = 404 ∨ r.status = 500))
  ∧ unboxResponse ⟨500, errObj emsg⟩ = SendOutcome.rejected (serverErrorRejectMsg emsg)
  ∧ strContains "500" (serverErrorRejectMsg emsg)
  ∧ strContains (escapeStr emsg) (serverErrorRejectMsg emsg)
  ∧ (plainChars emsg → strContains emsg (serverErrorRejectMsg emsg)) := by
  refine ⟨by simp [serverDataHandler, handleRequest, registerHandler, throwingHandler,
      Except.map, List.lookup], ?_, rfl,
    contains_500_serverError emsg, contains_escaped_msg_serverError emsg,
    fun hm => contains_plain_msg_serverError emsg hm⟩
  intro hs' cp message respMsg hrm
  unfold serverDataHandler at hrm
  split at hrm
  · split at hrm
    · rename_i request hreq
      cases hhr : handleRequest hs' cp request with
      | ok response =>
          rw [hhr] at hrm
          cases hrm
          rcases handleRequest_status hs' cp request response hhr with h2 | h2
          · exact ⟨response, rfl, Or.inl h2⟩
          · exact ⟨response, rfl, Or.inr (Or.inl h2)⟩
      | error e =>
          rw [hhr] at hrm
          cases hrm
          exact ⟨_, rfl, Or.inr (Or.inr rfl)⟩
    · cases hrm
  · cases hrm

/-- Witness for C7 at a concrete throwing handler. -/
theorem handler_throw_500_rejects_witness :
    serverDataHandler (registerHandler [] "/f" (throwingHandler "boom")) "A"
        ⟨MsgType.request, "r", some ⟨"/f", Value.null⟩, none⟩
      = some ⟨MsgType.response, "r", none, some ⟨500, errObj "boom"⟩⟩
  ∧ strContains "boom" (serverErrorRejectMsg "boom")
  ∧ strContains "500" (serverErrorRejectMsg "boom") := by
  have h := handler_throw_500_rejects [] "A" "r" "/f" Value.null "boom"
  exact ⟨h.1, h.2.2.2.2.2 (by decide), h.2.2.2.1⟩

/-- Counterexample to C7 as stated: a handler throwing the message `a"b`
yields a rejection message containing only the escaped form `a\"b`, not the
thrown message verbatim. -/
theorem handler_throw_500_counterexample :
    serverDataHandler (registerHandler [] "/p" (throwingHandler "a\"b")) "caller"
        ⟨MsgType.request, "r1", some ⟨"/p", Value.null⟩, none⟩
      = some ⟨MsgType.response, "r1", none, some ⟨500, errObj "a\"b"⟩⟩
  ∧ unboxResponse ⟨500, errObj "a\"b"⟩ = SendOutcome.rejected (serverErrorRejectMsg "a\"b")
  ∧ ¬ strContains "a\"b" (serverErrorRejectMsg "a\"b") := by
  refine ⟨by decide, rfl, by decide⟩

/-! ## C9: reconnection supervisor -/

theorem peerStep_myPeerId (s : ReconnState) (e : PeerEvent) :
    (peerStep s e).myPeerId = s.myPeerId := by
  cases e <;> simp only [peerStep, scheduleReconnect, reconnect, connect] <;>
    split_ifs <;> rfl

theorem peerStep_boundIds (s : ReconnState) (e : PeerEvent) (id : String)
    (h : id ∈ (peerStep s e).boundIds) : id ∈ s.boundIds ∨ id = s.myPeerId := by
  cases e <;> simp only [peerStep, scheduleReconnect, reconnect, connect] at h <;>
    (try split_ifs at h) <;> simp_all

theorem runPeer_myPeerId (events : List PeerEvent) :
    ∀ s : ReconnState, (runPeer events s).myPeerId = s.myPeerId := by
  induction events with
  | nil => intro s; rfl
  | cons e rest ih =>
      intro s
      have h1 : runPeer (e :: rest) s = runPeer rest (peerStep s e) := rfl
      rw [h1, ih (peerStep s e), peerStep_myPeerId]

theorem runPeer_boundIds (events : List PeerEvent) :
    ∀ (s : ReconnState) (id : String),
      (∀ i ∈ s.boundIds, i = s.myPeerId) →
      id ∈ (runPeer events s).boundIds → id = s.myPeerId := by
  induction events with
  | nil => intro s id hinv h; exact hinv id h
  | cons e rest ih =>
      intro s id hinv h
      have hinv' : ∀ i ∈ (peerStep s e).boundIds, i = (peerStep s e).myPeerId := by
        intro i hi
        rw [peerStep_myPeerId]
        rcases peerStep_boundIds s e i hi with hmem | heq
        · exact hinv i hmem
        · exact heq
      have h2 : runPeer (e :: rest) s = runPeer rest (peerStep s e) := rfl
      rw [h2] at h
      have := ih (peerStep s e) id hinv' h
      rwa [peerStep_myPeerId] at this

/-- C9: on a `disconnected` event or a recoverable error (network,
server-error, socket-error, socket-closed), exactly one reconnect attempt
is scheduled after the fixed 1000ms (one time unit) backoff; while one is
pending, further disconnect/error notifications change nothing; the fired
reconnect destroys the old transport handle and creates a new one bound to
the same `myPeerId`; and `getPeerId()` returns the construction-time id
after any event sequence (every id ever bound equals it). -/
theorem reconnect_supervisor_props :
    (∀ s : ReconnState, s.destroyed = false → s.reconnectTimer = false →
        peerStep s PeerEvent.disconnectedEvt
          = { s with reconnectTimer := true, schedLog := s.schedLog ++ [reconnectDelayMs] })
  ∧ (∀ (s : ReconnState) (t : String), s.destroyed = false → s.reconnectTimer = false →
        isRecoverableErrorType t = true →
        peerStep s (PeerEvent.errorEvt t)
          = { s with reconnectTimer := true, schedLog := s.schedLog ++ [reconnectDelayMs] })
  ∧ reconnectDelayMs = 1000
  ∧ (∀ s : ReconnState, s.reconnectTimer = true →
        peerStep s PeerEvent.disconnectedEvt = s)
  ∧ (∀ (s : ReconnState) (t : String), s.reconnectTimer = true →
        peerStep s (PeerEvent.errorEvt t) = s)
  ∧ (∀ s : ReconnState, s.destroyed = false → s.reconnectTimer = true →
        peerStep s PeerEvent.timerFire
          = { s with
                reconnectTimer := false,
                peerGen := s.peerGen + 1,
                destroyedGens := s.destroyedGens ++ [s.peerGen],
                boundIds := s.boundIds ++ [s.myPeerId] })
  ∧ (∀ (peerId : String) (events : List PeerEvent),
        getPeerId (runPeer events (initReconnState peerId)) = peerId)
  ∧ (∀ (peerId : String) (events : List PeerEvent) (id : String),
        id ∈ (runPeer events (initReconnState peerId)).boundIds → id = peerId) := by
  refine ⟨?_, ?_, rfl, ?_, ?_, ?_, ?_, ?_⟩
  · intro s h1 h2
    simp [peerStep, scheduleReconnect, h1, h2]
  · intro s t h1 h2 h3
    simp [peerStep, scheduleReconnect, h1, h2, h3]
  · intro s h1
    simp [peerStep, scheduleReconnect, h1]
  · intro s t h1
    unfold peerStep
    split_ifs <;> simp [scheduleReconnect, h1]
  · intro s h1 h2
    simp [peerStep, reconnect, connect, h1, h2]
  · intro peerId events
    exact runPeer_myPeerId events (initReconnState peerId)
  · intro peerId events id h
    exact runPeer_boundIds events (initReconnState peerId) id
      (by intro i hi; simpa [initReconnState] using hi) h

/-- Witness for C9 at a concrete supervisor state and event sequence. -/
theorem reconnect_supervisor_props_witness :
    peerStep (initReconnState "peer-1") PeerEvent.disconnectedEvt
        = { initReconnState "peer-1" with reconnectTimer := true, schedLog := [1000] }
  ∧ getPeerId (runPeer [PeerEvent.disconnectedEvt, PeerEvent.errorEvt "network",
        PeerEvent.timerFire] (initReconnState "peer-1")) = "peer-1" := by
  have h := reconnect_supervisor_props
  refine ⟨?_, h.2.2.2.2.2.2.1 "peer-1" _⟩
  have h1 := h.1 (initReconnState "peer-1") rfl rfl
  simpa [initReconnState, reconnectDelayMs] using h1

/-! ## C3: `ended` terminality and single ended notification -/

theorem mediaStep_listeners (s : CallSessionImpl) (e : MediaEvent) :
    (mediaStep s e).listeners = s.listeners := by
  cases e <;> rfl

theorem mediaStep_endedObsCount (s : CallSessionImpl) (e : MediaEvent) (lid : Nat) :
    endedObsCount (mediaStep s e) lid
      = endedObsCount s lid + (if isEndedEvent e then listenerCount s lid else 0) := by
  cases e <;>
    simp [mediaStep, setState, notifyStateChange, sessClose, endedObsCount, listenerCount,
      isEndedEvent, List.countP_append, List.countP_map, Function.comp] <;>
    exact List.countP_congr (fun a _ => by simp)

theorem runMedia_endedObsCount (events : List MediaEvent) :
    ∀ (s : CallSessionImpl) (lid : Nat),
      endedObsCount (runMedia s events) lid
        = endedObsCount s lid + (events.countP isEndedEvent) * listenerCount s lid := by
  induction events with
  | nil => intro s lid; simp [runMedia]
  | cons e rest ih =>
      intro s lid
      have h1 : runMedia s (e :: rest) = runMedia (mediaStep s e) rest := rfl
      have h2 : listenerCount (mediaStep s e) lid = listenerCount s lid := by
        simp [listenerCount, mediaStep_listeners]
      rw [h1, ih (mediaStep s e) lid, mediaStep_endedObsCount, h2, List.countP_cons]
      cases he : isEndedEvent e <;> simp [he] <;> ring

/-- C3 (amended): `ended` is terminal with respect to close and error
events (they never move a session out of `ended`), and over any media-event
sequence containing exactly one terminal event (one close or one error) a
registered state listener observes exactly one `ended` notification.
However, `setState` has no terminal-state guard, so a late remote-stream
arrival after `ended` moves the session back to `connected` (see the
counterexample). -/
theorem ended_terminal_close_error_single_notification :
    (∀ (s : CallSessionImpl) (emsg : Option String), s.state = CallState.ended →
        (mediaStep s MediaEvent.closeEvt).state = CallState.ended
      ∧ (mediaStep s (MediaEvent.errorEvt emsg)).state = CallState.ended)
  ∧ (∀ (s : CallSessionImpl) (events : List MediaEvent) (lid : Nat),
        s.observed = [] →
        events.countP isEndedEvent = 1 →
        listenerCount s lid = 1 →
        endedObsCount (runMedia s events) lid = 1) := by
  constructor
  · intro s emsg _h
    exact ⟨rfl, rfl⟩
  · intro s events lid hobs hc hl
    rw [runMedia_endedObsCount events s lid, hc, hl]
    simp [endedObsCount, hobs]

/-- Witness for C3 on a session with two registered listeners (one of them
throwing) receiving one remote close. -/
theorem ended_terminal_close_error_single_notification_witness :
    (mediaStep (runMedia (mkCallSession 2 "q" false [] []) [MediaEvent.closeEvt])
        MediaEvent.closeEvt).state = CallState.ended
  ∧ endedObsCount
      (runMedia (mkCallSession 1 "p" false [] [(7, false), (8, true)])
        [MediaEvent.closeEvt]) 7 = 1 := by
  refine ⟨(ended_terminal_close_error_single_notification.1 _ none (by decide)).1, ?_⟩
  exact ended_terminal_close_error_single_notification.2 _ [MediaEvent.closeEvt] 7 rfl
    (by decide) (by decide)

/-- Counterexample to C3 as stated: after a remote close the session is
`ended`, but a late remote-stream arrival transitions it back to
`connected` — `setState` overwrites the state unconditionally, so `ended`
is not terminal against a late `stream` event. -/
theorem late_stream_leaves_ended_counterexample :
    (runMedia (mkCallSession 3 "peer-2" false [] []) [MediaEvent.closeEvt]).state
        = CallState.ended
  ∧ (runMedia (mkCallSession 3 "peer-2" false [] [])
        [MediaEvent.closeEvt, MediaEvent.streamEvt 5]).state = CallState.connected := by
  exact ⟨by decide, by decide⟩

/-! ## C8: toggleMute -/

theorem toggleMuteTrack_props (m : Bool) (t : MediaTrack) :
    (toggleMuteTrack m t).kind = t.kind
  ∧ (toggleMuteTrack m t).stopped = t.stopped
  ∧ (t.kind ≠ TrackKind.audio → toggleMuteTrack m t = t) := by
  unfold toggleMuteTrack
  by_cases hk : t.kind = TrackKind.audio
  · rw [if_pos hk]
    exact ⟨rfl, rfl, fun hn => absurd hk hn⟩
  · rw [if_neg hk]
    exact ⟨rfl, rfl, fun _ => rfl⟩

/-- C8: for every session whose audio tracks are in sync with `isMuted`
(true of every session the wrapper creates and an invariant of the
toggles), toggling mute twice restores the session exactly — same muted
state, every track's `enabled` back to its original value; and each toggle
only rewrites the `enabled` flag of audio-kind tracks, never touches
`stopped`, and never releases the local stream. -/
theorem toggleMute_double_restores (s : CallSessionImpl) (h : audioSync s) :
    (toggleMute (toggleMute s).1).1 = s
  ∧ (toggleMute (toggleMute s).1).2 = s.isMuted
  ∧ (∀ (m : Bool) (t : MediaTrack),
        (toggleMuteTrack m t).kind = t.kind
      ∧ (toggleMuteTrack m t).stopped = t.stopped
      ∧ (t.kind ≠ TrackKind.audio → toggleMuteTrack m t = t))
  ∧ (toggleMute s).1.localStream.isSome = s.localStream.isSome := by
  have key : ∀ tracks, s.localStream = some tracks →
      ∀ t ∈ tracks, toggleMuteTrack (!s.isMuted) (toggleMuteTrack s.isMuted t) = t := by
    intro tracks hls t ht
    by_cases hk : t.kind = TrackKind.audio
    · have he := h tracks hls t ht hk
      cases t with
      | mk k e st =>
          simp only at hk he
          subst hk
          simp [toggleMuteTrack, ← he]
    · simp [toggleMuteTrack, hk]
  refine ⟨?_, ?_, fun m t => toggleMuteTrack_props m t, ?_⟩
  · cases hls : s.localStream with
    | none => simp [toggleMute, hls]
    | some tracks =>
        simp only [toggleMute, hls, List.map_map]
        have hm : tracks.map (toggleMuteTrack (!s.isMuted) ∘ toggleMuteTrack s.isMuted)
            = tracks := by
          have h2 : ∀ t ∈ tracks,
              (toggleMuteTrack (!s.isMuted) ∘ toggleMuteTrack s.isMuted) t = id t :=
            fun t ht => key tracks hls t ht
          rw [List.map_congr_left h2, List.map_id]
        rw [hm, Bool.not_not, ← hls]
  · cases hls : s.localStream with
    | none => simp [toggleMute, hls]
    | some tracks => simp [toggleMute, hls, Bool.not_not]
  · cases hls : s.localStream with
    | none => simp [toggleMute, hls]
    | some tracks => simp [toggleMute, hls]

/-- Witness for C8 on a fresh session with one audio and one video track. -/
theorem toggleMute_double_restores_witness :
    (toggleMute (toggleMute (mkCallSession 4 "p" true
        [⟨TrackKind.audio, true, false⟩, ⟨TrackKind.video, true, false⟩] [])).1).1
      = mkCallSession 4 "p" true
          [⟨TrackKind.audio, true, false⟩, ⟨TrackKind.video, true, false⟩] []
  ∧ (toggleMute (mkCallSession 4 "p" true
        [⟨TrackKind.audio, true, false⟩, ⟨TrackKind.video, true, false⟩] [])).1.localStream.isSome
      = (mkCallSession 4 "p" true
          [⟨TrackKind.audio, true, false⟩, ⟨TrackKind.video, true, false⟩] []).localStream.isSome := by
  have h := toggleMute_double_restores (mkCallSession 4 "p" true
    [⟨TrackKind.audio, true, false⟩, ⟨TrackKind.video, true, false⟩] [])
    (by
      intro tracks htr t ht hk
      simp only [mkCallSession, Option.some.injEq] at htr
      subst htr
      simp only [mkCallSession]
      fin_cases ht <;> simp_all)
  exact ⟨h.1, h.2.2.2⟩

/-! ## C4: single active call -/

/-- C4: while a CallSession is active (the `activeCall` slot holds it, in
state `connecting` or `connected`), a further `call()` rejects with
`'Already in a call'` and an `answer()` closes the offered media connection
and throws `'Already in a call'`; neither changes the wrapper state, so no
second session is created — and the slot, being a single nullable
reference, holds at most one session at any time. -/
theorem second_call_rejected (w : WrapperCalls) (s : CallSessionImpl)
    (hact : w.activeCall = some s.sid)
    (hst : s.state = CallState.connecting ∨ s.state = CallState.connected) :
    callAttempt w = (w, CallAttemptResult.rejected "Already in a call")
  ∧ answerAttempt w = (w, ⟨true, Except.error "Already in a call"⟩) := by
  have hsome : w.activeCall.isSome = true := by rw [hact]; rfl
  constructor <;> simp [callAttempt, answerAttempt, hsome]

/-- Witness for C4 with a registered connecting session. -/
theorem second_call_rejected_witness :
    callAttempt ⟨some 3, 4⟩ = (⟨some 3, 4⟩, CallAttemptResult.rejected "Already in a call")
  ∧ answerAttempt ⟨some 3, 4⟩ = (⟨some 3, 4⟩, ⟨true, Except.error "Already in a call"⟩) :=
  second_call_rejected ⟨some 3, 4⟩ (mkCallSession 3 "p" false [] []) rfl (Or.inl rfl)

/-! ## C10: ended notification clears the active-call slot -/

/-- C10: whenever a session's state-change listeners are notified of the
`ended` transition, `notifyStateChange` invokes `cleanupCall`, which clears
that session from the active-call slot: afterwards `getActiveCall()`
returns null and a subsequent `call()` is no longer rejected as already in
a call. -/
theorem ended_notification_clears_active_call (w : WrapperCalls) (s : CallSessionImpl)
    (reason : Option String) (hact : w.activeCall = some s.sid) :
    (wrapperSetState w s CallState.ended reason).1.activeCall = none
  ∧ getActiveCall (wrapperSetState w s CallState.ended reason).1 = none
  ∧ (callAttempt (wrapperSetState w s CallState.ended reason).1).2
      = CallAttemptResult.started (wrapperSetState w s CallState.ended reason).1.nextSid := by
  have h1 : (wrapperSetState w s CallState.ended reason).1.activeCall = none := by
    simp [wrapperSetState, cleanupCall, setState, notifyStateChange, hact]
  refine ⟨h1, by simpa [getActiveCall] using h1, ?_⟩
  simp [callAttempt, h1]

/-- Witness for C10 at a concrete wrapper state and session. -/
theorem ended_notification_clears_active_call_witness :
    (wrapperSetState ⟨some 5, 6⟩ (mkCallSession 5 "p" false [] [(1, false)])
        CallState.ended (some "Connection closed")).1.activeCall = none :=
  (ended_notification_clears_active_call ⟨some 5, 6⟩
    (mkCallSession 5 "p" false [] [(1, false)]) (some "Connection closed") rfl).1

/-! ## C5: the `call()` promise on an early `ended` transition -/

/-- C5 (evaluating the code at the failing input): when the media
connection closes before any remote stream — the callee rejecting the call
— the session reaches `ended`, yet the `call()` promise RESOLVES with the
session instead of rejecting with the ended reason: the internal
`onConnected` listener fires on every state change without checking the
state, settles the promise, and unsubscribes `onEnded` before
`Set.forEach` reaches it.  This contradicts the claim (and the spec's
"resolve exactly once — on `connected`, or reject with the ended reason"),
whose intent the listener's own name `onConnected` and the state check
inside `onEnded` make clear. -/
theorem call_promise_resolves_despite_ended :
    (runCallPromise initCallPromise [CallEvent.mediaClose]).promise
        = some CallPromiseOutcome.resolvedSession
  ∧ (runCallPromise initCallPromise [CallEvent.mediaClose]).sessState = CallState.ended
  ∧ (runCallPromise initCallPromise [CallEvent.timerFire]).promise
        = some (CallPromiseOutcome.rejectedCall "Call timeout - no answer") := by
  exact ⟨rfl, rfl, rfl⟩

end SxPeerJsHttpUtil
